import Mathlib

/-!
Shallow embedding of `src/tracker.py` (YT-Growth-Tracker).

Conventions of the embedding:
* Python `float` arithmetic on the small metric values is modelled with exact
  rationals (`ℚ`); the claims are about the formulas, not IEEE rounding.
* A `datetime` publish instant is modelled as an `Int` count of seconds since
  the epoch; `(a - b).days` on `timedelta` is floor division of the second
  difference by 86400, i.e. `Int.fdiv (a - b) 86400`.
* `print` diagnostics are modelled by returning a list of messages alongside
  the result.
* An HTTP call is modelled by `HttpResult`: either a transport error
  (`requests.exceptions.RequestException`) or a response with a status code and
  a body; a body of `none` stands for a malformed payload, i.e. one on which
  `.json()` or the subsequent field extraction raises (the `except Exception`
  arm of the source).
-/

/-- One entry of the list built in `get_recent_videos` (tracker.py:110-117). -/
structure VideoRecord where
  video_id : String
  title : String
  published_at : Int
  views : Nat
  likes : Nat
  comments : Nat
deriving Repr, DecidableEq

/-- The flat record returned by `get_channel_stats` (tracker.py:46-53). -/
structure ChannelStats where
  channel_id : String
  channel_name : String
  subscribers : Nat
  total_views : Nat
  videos : Nat
  timestamp : String
deriving Repr, DecidableEq

/-- The per-channel row appended by `compare_channels` (tracker.py:172-178). -/
structure ComparisonRow where
  channel_id : String
  channel_name : String
  subscribers : Nat
  total_views : Nat
  videos : Nat
  timestamp : String
  avg_views_per_video : ℚ
  avg_engagement_rate : ℚ
  upload_frequency_per_day : ℚ
  recent_video_count : Nat
deriving Repr, DecidableEq

/-- Engagement rate, tracker.py:130-134.  The `video_stats` argument is an
`Option` because Python tests `not video_stats` (absent input). -/
def calculate_engagement_rate (video_stats : Option VideoRecord) : ℚ :=
  match video_stats with
  | none => 0
  | some v =>
    if v.views = 0 then 0
    else (((v.likes : ℚ) + (v.comments : ℚ)) / (v.views : ℚ)) * 100

/-- Placeholder record used only as the default of `List.headD`/`List.getLastD`
under a non-emptiness guard; it is never read. -/
def dummyVideo : VideoRecord :=
  { video_id := "", title := "", published_at := 0, views := 0, likes := 0, comments := 0 }

/-- Whole-day difference of two instants: `(a - b).days` in Python, which is
floor division of the signed second difference by 86400. -/
def tdDays (a b : Int) : Int :=
  Int.fdiv (a - b) 86400

/-- The publish instant of `upload_dates[0]`, the first (most recent) video of
the list (tracker.py:163). -/
def firstInstant (vids : List VideoRecord) : Int :=
  (vids.map (fun v => v.published_at)).headD 0

/-- The publish instant of `upload_dates[-1]`, the last (least recent) video
of the list (tracker.py:163). -/
def lastInstant (vids : List VideoRecord) : Int :=
  (vids.map (fun v => v.published_at)).getLastD 0

/-- Upload frequency, tracker.py:157-166: with at least two upload dates,
`days_diff = (dates[0] - dates[-1]).days`, and the frequency is
`len / max(days_diff, 1)` when `days_diff > 0`, else `len`; with fewer than
two dates it is 0. -/
def upload_frequency (recent_videos : List VideoRecord) : ℚ :=
  if 2 ≤ (recent_videos.map (fun v => v.published_at)).length then
    let days_diff := tdDays (firstInstant recent_videos) (lastInstant recent_videos)
    if 0 < days_diff then
      (recent_videos.length : ℚ) / ((max days_diff 1 : Int) : ℚ)
    else
      (recent_videos.length : ℚ)
  else 0

/-- The body of the per-channel loop of `compare_channels` after a summary was
fetched, tracker.py:151-178: derived metrics from the recent-video list, then
the row combining the summary with them. -/
def compareOne (channel_stats : ChannelStats) (recent_videos : List VideoRecord) :
    ComparisonRow :=
  let avg_views : ℚ :=
    if recent_videos.isEmpty then 0
    else ((recent_videos.map (fun v => (v.views : ℚ))).sum) / (recent_videos.length : ℚ)
  let avg_engagement : ℚ :=
    if recent_videos.isEmpty then 0
    else ((recent_videos.map (fun v => calculate_engagement_rate (some v))).sum) /
      (recent_videos.length : ℚ)
  let freq : ℚ := if recent_videos.isEmpty then 0 else upload_frequency recent_videos
  { channel_id := channel_stats.channel_id
    channel_name := channel_stats.channel_name
    subscribers := channel_stats.subscribers
    total_views := channel_stats.total_views
    videos := channel_stats.videos
    timestamp := channel_stats.timestamp
    avg_views_per_video := avg_views
    avg_engagement_rate := avg_engagement
    upload_frequency_per_day := freq
    recent_video_count := recent_videos.length }

/-- The base fields of a row, for stating that they are copied verbatim from
the fetched summary. -/
def baseOf (r : ComparisonRow) : ChannelStats :=
  { channel_id := r.channel_id
    channel_name := r.channel_name
    subscribers := r.subscribers
    total_views := r.total_views
    videos := r.videos
    timestamp := r.timestamp }

/-- Outcome of one `requests.get`: transport error, or a response with a
status code and a body; `none` as body means the payload is malformed (parsing
or field extraction raises, landing in the `except Exception` arm). -/
inductive HttpResult (β : Type) where
  | netErr
  | resp (status : Nat) (body : Option β)
deriving Repr, DecidableEq

/-- Statistics part of one item of the channel-lookup payload; `stats.get`
defaults a missing count to 0 (tracker.py:49-51). -/
structure ChannelStatsPart where
  subscriberCount : Option Nat
  viewCount : Option Nat
  videoCount : Option Nat
deriving Repr, DecidableEq

/-- One item of the channel-lookup payload (tracker.py:42-44). -/
structure ChannelItem where
  title : String
  statistics : ChannelStatsPart
deriving Repr, DecidableEq

/-- Channel-lookup payload: `pageInfo.totalResults` (missing keys default to 0
via the chained `.get`, tracker.py:38) and the `items` list. -/
structure ChannelPayload where
  totalResults : Nat
  items : List ChannelItem
deriving Repr, DecidableEq

/-- Channel stats fetch, tracker.py:21-59, as a function of the response the
remote returns.  `now` is the captured retrieval timestamp.  The second
component collects the printed diagnostics.  An empty `items` list despite a
nonzero `totalResults` makes `data["items"][0]` raise; the `except Exception`
arm prints and returns `None`. -/
def get_channel_stats (channel_id : String) (now : String)
    (r : HttpResult ChannelPayload) : Option ChannelStats × List String :=
  match r with
  | .netErr => (none, ["Network error"])
  | .resp status body =>
    if status ≠ 200 then (none, ["API Error " ++ toString status])
    else
      match body with
      | none => (none, ["Error fetching channel stats"])
      | some data =>
        if data.totalResults = 0 then
          (none, ["No channel found with ID: " ++ channel_id])
        else
          match data.items with
          | [] => (none, ["Error fetching channel stats"])
          | channel :: _ =>
            (some { channel_id := channel_id
                    channel_name := channel.title
                    subscribers := channel.statistics.subscriberCount.getD 0
                    total_views := channel.statistics.viewCount.getD 0
                    videos := channel.statistics.videoCount.getD 0
                    timestamp := now }, [])

/-- The search request built in tracker.py:67-74; the response may depend on
it (notably on `maxResults`). -/
structure SearchRequest where
  channelId : String
  order : String
  searchType : String
  maxResults : Nat
deriving Repr, DecidableEq

/-- The concrete request `search_params` of tracker.py:67-74. -/
def searchRequest (channel_id : String) (max_results : Nat) : SearchRequest :=
  { channelId := channel_id, order := "date", searchType := "video",
    maxResults := max_results }

/-- One item of the search payload: `item["id"]["videoId"]` (tracker.py:88). -/
structure SearchItem where
  videoId : String
deriving Repr, DecidableEq

/-- Search payload: its `items` list; a missing `items` key behaves like an
empty list (both are falsy at tracker.py:85). -/
structure SearchPayload where
  items : List SearchItem
deriving Repr, DecidableEq

/-- One item of the video-details payload (tracker.py:106-117); `stats.get`
defaults missing counts to 0. -/
structure VideoItem where
  id : String
  title : String
  publishedAt : Int
  viewCount : Option Nat
  likeCount : Option Nat
  commentCount : Option Nat
deriving Repr, DecidableEq

/-- Video-details payload: `videos_data.get('items', [])`. -/
structure VideosPayload where
  items : List VideoItem
deriving Repr, DecidableEq

/-- The record built from one details item (tracker.py:110-117). -/
def extractVideo (video : VideoItem) : VideoRecord :=
  { video_id := video.id
    title := video.title
    published_at := video.publishedAt
    views := video.viewCount.getD 0
    likes := video.likeCount.getD 0
    comments := video.commentCount.getD 0 }

/-- Recent-video fetch, tracker.py:65-124, as a function of the two responses
the remote returns: the search response (a function of the built request) and
the details response (a function of the comma-joined, here list-valued, id
parameter).  The second component collects the printed diagnostics.  Note the
loop at tracker.py:106 walks the details response's own `items` order. -/
def get_recent_videos (channel_id : String) (max_results : Nat)
    (search_api : SearchRequest → HttpResult SearchPayload)
    (videos_api : List String → HttpResult VideosPayload) :
    List VideoRecord × List String :=
  match search_api (searchRequest channel_id max_results) with
  | .netErr => ([], ["Network error"])
  | .resp status body =>
    if status ≠ 200 then ([], ["Search API Error " ++ toString status])
    else
      match body with
      | none => ([], ["Error fetching videos"])
      | some search_data =>
        if search_data.items.isEmpty then ([], [])
        else
          let video_ids := search_data.items.map (fun item => item.videoId)
          match videos_api video_ids with
          | .netErr => ([], ["Network error"])
          | .resp status2 body2 =>
            if status2 ≠ 200 then ([], ["Videos API Error " ++ toString status2])
            else
              match body2 with
              | none => ([], ["Error fetching videos"])
              | some videos_data => (videos_data.items.map extractVideo, [])

/-- Aggregator loop of `compare_channels`, tracker.py:140-182, over abstract
fetchers (the remote API is external): a channel whose summary fetch yields
`none` is skipped with `continue`; otherwise a row is appended. -/
def compare_channels (get_stats : String → Option ChannelStats)
    (get_videos : String → List VideoRecord) :
    List String → List ComparisonRow
  | [] => []
  | channel_id :: rest =>
    match get_stats channel_id with
    | none => compare_channels get_stats get_videos rest
    | some channel_stats =>
      compareOne channel_stats (get_videos channel_id) ::
        compare_channels get_stats get_videos rest

/-- CSV cell values: `csv.DictWriter` stringifies each dict value; the exact
rendering is irrelevant to the claims, so values are kept typed. -/
inductive CsvValue where
  | str (s : String)
  | nat (n : Nat)
  | rat (q : ℚ)
deriving Repr, DecidableEq

/-- The key order of a row dict, tracker.py:172-178: the six `channel_stats`
keys (in the insertion order of tracker.py:46-53) followed by the four derived
keys.  Every row of a run has exactly this key set, so `data[0].keys()` is
this list. -/
def rowFieldNames : List String :=
  ["channel_id", "channel_name", "subscribers", "total_views", "videos",
   "timestamp", "avg_views_per_video", "avg_engagement_rate",
   "upload_frequency_per_day", "recent_video_count"]

/-- The values of one row in the order of `rowFieldNames`. -/
def rowValues (r : ComparisonRow) : List CsvValue :=
  [.str r.channel_id, .str r.channel_name, .nat r.subscribers,
   .nat r.total_views, .nat r.videos, .str r.timestamp,
   .rat r.avg_views_per_video, .rat r.avg_engagement_rate,
   .rat r.upload_frequency_per_day, .nat r.recent_video_count]

/-- A written CSV file: the header line and the records. -/
structure CsvFile where
  header : List String
  records : List (List CsvValue)
deriving Repr, DecidableEq

/-- CSV export, tracker.py:188-202: empty input prints the no-data diagnostic
and returns without opening the file (`none`); otherwise the header is
`data[0].keys()` and `writerows` emits one record per row. -/
def export_to_csv (data : List ComparisonRow) : Option CsvFile × List String :=
  match data with
  | [] => (none, ["No data to export"])
  | _ :: _ =>
    (some { header := rowFieldNames, records := data.map rowValues },
     ["Data exported to channel_comparison.csv"])

/-- Python `a or b` on an optional string and a fallback: the first operand
wins unless it is absent or empty (falsy). -/
def pyOr (a b : Option String) : Option String :=
  match a with
  | none => b
  | some s => if s = "" then b else some s

/-- The `ValueError` message of tracker.py:14. -/
def apiKeyErrorMsg : String :=
  "API key required. Set YOUTUBE_API_KEY env var or pass it directly."

/-- Credential resolution of `YouTubeGrowthTracker.__init__`, tracker.py:11-15:
`api_key or os.getenv("YOUTUBE_API_KEY")`, then `ValueError` when the result
is still falsy. -/
def tracker_init (api_key : Option String) (env : Option String) :
    Except String String :=
  match pyOr api_key env with
  | none => .error apiKeyErrorMsg
  | some k =>
    if k = "" then .error apiKeyErrorMsg
    else .ok k

/-- The hardcoded channel list of `main`, tracker.py:222-225. -/
def channels_to_compare : List String :=
  ["UCkzzNLnuM-VsATWC53ehwOQ", "UCvYPobTo42NM36X7VC4dLhA"]

/-- Python `sorted(rows, key=subscribers, reverse=True)`: a stable descending
sort returning a fresh list. -/
def sortedBySubscribersDesc (rows : List ComparisonRow) : List ComparisonRow :=
  rows.mergeSort (fun a b => decide (b.subscribers ≤ a.subscribers))

/-- Observable outcome of `main`, tracker.py:208-244: the channel identifiers
for which network fetches were issued, the row order of the console report,
the sequence handed to `export_to_csv`, and the export outcome. -/
structure MainResult where
  network_channels : List String
  console_rows : List ComparisonRow
  export_input : List ComparisonRow
  export_outcome : Option CsvFile × List String
deriving Repr, DecidableEq

/-- Control flow of `main`, tracker.py:208-244, over abstract fetchers: no
API key means an early return before any fetch; otherwise the comparison runs
over `channels_to_compare`, the console report iterates
`sorted(comparison_data, ..., reverse=True)`, and the untouched
`comparison_data` binding is passed to `export_to_csv` (skipped when the data
is empty). -/
def main_run (env : Option String) (get_stats : String → Option ChannelStats)
    (get_videos : String → List VideoRecord) : MainResult :=
  match env with
  | none =>
    { network_channels := [], console_rows := [], export_input := [],
      export_outcome := (none, []) }
  | some api_key =>
    if api_key = "" then
      { network_channels := [], console_rows := [], export_input := [],
        export_outcome := (none, []) }
    else
      let comparison_data := compare_channels get_stats get_videos channels_to_compare
      match comparison_data with
      | [] =>
        { network_channels := channels_to_compare, console_rows := [],
          export_input := [], export_outcome := (none, []) }
      | _ :: _ =>
        { network_channels := channels_to_compare
          console_rows := sortedBySubscribersDesc comparison_data
          export_input := comparison_data
          export_outcome := export_to_csv comparison_data }

/-!
Theorems about the claims.  Python raises no exception in any of the modelled
functions because every modelled function is total; the absence of `NaN` in
the metric formulas holds because the embedding computes in `ℚ` after the
source's explicit zero-denominator guards.
-/

/-- Arithmetic mean of a list of rationals, the spec-side notion used by the
averaging claims. -/
def arithMean (l : List ℚ) : ℚ :=
  l.sum / (l.length : ℚ)

/-- C2: `calculate_engagement_rate` returns `(likes + comments) / views * 100`
when views is positive, and exactly 0 when views is zero or the record is
absent; being a total `ℚ`-valued function it can neither raise a
division-by-zero error nor produce NaN. -/
theorem c2_engagement_rate (v : Option VideoRecord) :
    (∀ r : VideoRecord, v = some r → 0 < r.views →
      calculate_engagement_rate v =
        (((r.likes : ℚ) + (r.comments : ℚ)) / (r.views : ℚ)) * 100) ∧
    ((v = none ∨ ∃ r : VideoRecord, v = some r ∧ r.views = 0) →
      calculate_engagement_rate v = 0) := by
  constructor
  · rintro r rfl hv
    have : r.views ≠ 0 := Nat.pos_iff_ne_zero.mp hv
    simp [calculate_engagement_rate, this]
  · rintro (rfl | ⟨r, rfl, hr⟩)
    · simp [calculate_engagement_rate]
    · simp [calculate_engagement_rate, hr]

/-- Witness for C2 at a concrete record with positive views and at the absent
record. -/
theorem c2_engagement_rate_witness :
    (0 : Nat) <
      (VideoRecord.mk "v1" "t" 0 100 3 2).views ∧
    calculate_engagement_rate (some (VideoRecord.mk "v1" "t" 0 100 3 2)) =
      ((((VideoRecord.mk "v1" "t" 0 100 3 2).likes : ℚ) +
        ((VideoRecord.mk "v1" "t" 0 100 3 2).comments : ℚ)) /
        ((VideoRecord.mk "v1" "t" 0 100 3 2).views : ℚ)) * 100 ∧
    calculate_engagement_rate none = 0 :=
  ⟨by decide,
   (c2_engagement_rate (some (VideoRecord.mk "v1" "t" 0 100 3 2))).1
     (VideoRecord.mk "v1" "t" 0 100 3 2) rfl (by decide),
   (c2_engagement_rate none).2 (Or.inl rfl)⟩

/-- C3: for a successfully summarised channel, a non-empty recent-video list
gives `avg_views_per_video` equal to the arithmetic mean of exactly its
`views` fields and `avg_engagement_rate` equal to the arithmetic mean of its
per-video engagement rates, while an empty list gives all three derived
metrics 0 and `recent_video_count` 0. -/
theorem c3_averages (cs : ChannelStats) (vids : List VideoRecord) :
    (vids ≠ [] →
      (compareOne cs vids).avg_views_per_video =
        arithMean (vids.map (fun v => (v.views : ℚ))) ∧
      (compareOne cs vids).avg_engagement_rate =
        arithMean (vids.map (fun v => calculate_engagement_rate (some v)))) ∧
    (vids = [] →
      (compareOne cs vids).avg_views_per_video = 0 ∧
      (compareOne cs vids).avg_engagement_rate = 0 ∧
      (compareOne cs vids).upload_frequency_per_day = 0 ∧
      (compareOne cs vids).recent_video_count = 0) := by
  constructor
  · intro h
    constructor <;>
      simp [compareOne, arithMean, h]
  · rintro rfl
    simp [compareOne]

/-- Witness for C3 at a concrete three-video list and at the empty list. -/
theorem c3_averages_witness :
    ([VideoRecord.mk "a" "" 0 100 1 0, VideoRecord.mk "b" "" 0 200 2 0,
        VideoRecord.mk "c" "" 0 300 3 0] ≠ ([] : List VideoRecord) ∧
      (compareOne (ChannelStats.mk "c" "n" 1 2 3 "t")
          [VideoRecord.mk "a" "" 0 100 1 0, VideoRecord.mk "b" "" 0 200 2 0,
            VideoRecord.mk "c" "" 0 300 3 0]).avg_views_per_video =
        arithMean ([VideoRecord.mk "a" "" 0 100 1 0, VideoRecord.mk "b" "" 0 200 2 0,
          VideoRecord.mk "c" "" 0 300 3 0].map (fun v => (v.views : ℚ))) ∧
      (compareOne (ChannelStats.mk "c" "n" 1 2 3 "t")
          [VideoRecord.mk "a" "" 0 100 1 0, VideoRecord.mk "b" "" 0 200 2 0,
            VideoRecord.mk "c" "" 0 300 3 0]).avg_engagement_rate =
        arithMean ([VideoRecord.mk "a" "" 0 100 1 0, VideoRecord.mk "b" "" 0 200 2 0,
          VideoRecord.mk "c" "" 0 300 3 0].map
            (fun v => calculate_engagement_rate (some v)))) ∧
    ((compareOne (ChannelStats.mk "c" "n" 1 2 3 "t") []).avg_views_per_video = 0 ∧
      (compareOne (ChannelStats.mk "c" "n" 1 2 3 "t") []).avg_engagement_rate = 0 ∧
      (compareOne (ChannelStats.mk "c" "n" 1 2 3 "t") []).upload_frequency_per_day = 0 ∧
      (compareOne (ChannelStats.mk "c" "n" 1 2 3 "t") []).recent_video_count = 0) :=
  ⟨⟨by decide,
    (c3_averages (ChannelStats.mk "c" "n" 1 2 3 "t")
        [VideoRecord.mk "a" "" 0 100 1 0, VideoRecord.mk "b" "" 0 200 2 0,
          VideoRecord.mk "c" "" 0 300 3 0]).1 (by decide)⟩,
   (c3_averages (ChannelStats.mk "c" "n" 1 2 3 "t") []).2 rfl⟩

/-- C1: for a non-empty recent-video list (newest first, so the last instant
is at most the first), the row's `upload_frequency_per_day` is 0 for fewer
than two videos, the raw video count when the whole-day difference between the
first and last publish instant is 0, and count divided by that difference
otherwise. -/
theorem c1_upload_frequency (cs : ChannelStats) (vids : List VideoRecord)
    (hne : vids ≠ [])
    (hord : lastInstant vids ≤ firstInstant vids) :
    (compareOne cs vids).upload_frequency_per_day =
      if vids.length < 2 then 0
      else if tdDays (firstInstant vids) (lastInstant vids) = 0 then
        (vids.length : ℚ)
      else
        (vids.length : ℚ) / ((tdDays (firstInstant vids) (lastInstant vids) : Int) : ℚ) := by
  have hfreq : (compareOne cs vids).upload_frequency_per_day = upload_frequency vids := by
    simp [compareOne, hne]
  rw [hfreq]
  unfold upload_frequency
  simp only [List.length_map]
  by_cases h2 : vids.length < 2
  · rw [if_neg (by omega), if_pos h2]
  · rw [if_pos (by omega), if_neg h2]
    have hD : 0 ≤ tdDays (firstInstant vids) (lastInstant vids) :=
      Int.fdiv_nonneg (by omega) (by norm_num)
    by_cases hD0 : tdDays (firstInstant vids) (lastInstant vids) = 0
    · rw [if_pos hD0, if_neg (by omega)]
    · have hpos : 0 < tdDays (firstInstant vids) (lastInstant vids) := by omega
      rw [if_neg hD0, if_pos hpos, max_eq_left (by omega)]

/-- Witness for C1 at a three-video list spanning two whole days. -/
theorem c1_upload_frequency_witness :
    ([VideoRecord.mk "a" "" 172800 10 0 0, VideoRecord.mk "b" "" 86400 10 0 0,
        VideoRecord.mk "c" "" 0 10 0 0] ≠ ([] : List VideoRecord)) ∧
    lastInstant [VideoRecord.mk "a" "" 172800 10 0 0, VideoRecord.mk "b" "" 86400 10 0 0,
        VideoRecord.mk "c" "" 0 10 0 0] ≤
      firstInstant [VideoRecord.mk "a" "" 172800 10 0 0, VideoRecord.mk "b" "" 86400 10 0 0,
        VideoRecord.mk "c" "" 0 10 0 0] ∧
    (compareOne (ChannelStats.mk "c" "n" 1 2 3 "t")
        [VideoRecord.mk "a" "" 172800 10 0 0, VideoRecord.mk "b" "" 86400 10 0 0,
          VideoRecord.mk "c" "" 0 10 0 0]).upload_frequency_per_day =
      if ([VideoRecord.mk "a" "" 172800 10 0 0, VideoRecord.mk "b" "" 86400 10 0 0,
            VideoRecord.mk "c" "" 0 10 0 0] : List VideoRecord).length < 2 then 0
      else if tdDays
          (firstInstant [VideoRecord.mk "a" "" 172800 10 0 0,
            VideoRecord.mk "b" "" 86400 10 0 0, VideoRecord.mk "c" "" 0 10 0 0])
          (lastInstant [VideoRecord.mk "a" "" 172800 10 0 0,
            VideoRecord.mk "b" "" 86400 10 0 0, VideoRecord.mk "c" "" 0 10 0 0]) = 0 then
        (([VideoRecord.mk "a" "" 172800 10 0 0, VideoRecord.mk "b" "" 86400 10 0 0,
            VideoRecord.mk "c" "" 0 10 0 0] : List VideoRecord).length : ℚ)
      else
        (([VideoRecord.mk "a" "" 172800 10 0 0, VideoRecord.mk "b" "" 86400 10 0 0,
            VideoRecord.mk "c" "" 0 10 0 0] : List VideoRecord).length : ℚ) /
          ((tdDays
            (firstInstant [VideoRecord.mk "a" "" 172800 10 0 0,
              VideoRecord.mk "b" "" 86400 10 0 0, VideoRecord.mk "c" "" 0 10 0 0])
            (lastInstant [VideoRecord.mk "a" "" 172800 10 0 0,
              VideoRecord.mk "b" "" 86400 10 0 0, VideoRecord.mk "c" "" 0 10 0 0]) : Int) : ℚ) :=
  ⟨by decide, by decide,
   c1_upload_frequency (ChannelStats.mk "c" "n" 1 2 3 "t")
     [VideoRecord.mk "a" "" 172800 10 0 0, VideoRecord.mk "b" "" 86400 10 0 0,
       VideoRecord.mk "c" "" 0 10 0 0] (by decide) (by decide)⟩

/-- C6: `compare_channels` is exactly a `filterMap` over the identifiers —
identifiers whose summary fetch yields `none` contribute no row and do not
stop the loop, every emitted row is built from the fetched summary, and rows
come out in processing order; moreover the base fields of every emitted row
are a verbatim copy of the summary it was built from. -/
theorem c6_skip_and_order (get_stats : String → Option ChannelStats)
    (get_videos : String → List VideoRecord) (ids : List String) :
    compare_channels get_stats get_videos ids =
      ids.filterMap (fun channel_id =>
        (get_stats channel_id).map (fun cs => compareOne cs (get_videos channel_id))) ∧
    ∀ cs vids, baseOf (compareOne cs vids) = cs := by
  constructor
  · induction ids with
    | nil => rfl
    | cons a l ih =>
      rw [List.filterMap_cons]
      cases h : get_stats a with
      | none => simpa [compare_channels, h] using ih
      | some cs => simpa [compare_channels, h] using ih
  · intro cs vids
    rfl

/-- Concrete details item carrying id "a", published later than `itemB`. -/
def itemA : VideoItem :=
  { id := "a", title := "ta", publishedAt := 100000, viewCount := some 7,
    likeCount := some 1, commentCount := some 0 }

/-- Concrete details item carrying id "b". -/
def itemB : VideoItem :=
  { id := "b", title := "tb", publishedAt := 5000, viewCount := some 9,
    likeCount := some 2, commentCount := some 1 }

/-- Concrete search payload listing the ids "a" then "b" (date-descending,
consistent with the publish instants of `itemA` and `itemB`). -/
def searchAB : SearchPayload :=
  { items := [{ videoId := "a" }, { videoId := "b" }] }

/-- C4 counterexample: the search response lists ids `["a", "b"]`, the details
endpoint answers with the same two videos but in the order `["b", "a"]`, and
the returned sequence comes out in the details order, not the search order —
the code walks `videos_data['items']` as received and never restores the
search order. -/
theorem c4_counterexample :
    (([itemB, itemA].map (fun i => i.id)).Perm
        (searchAB.items.map (fun i => i.videoId))) ∧
    (get_recent_videos "c" 10 (fun _ => .resp 200 (some searchAB))
        (fun _ => .resp 200 (some { items := [itemB, itemA] }))).1.map
      (fun v => v.video_id) ≠ searchAB.items.map (fun i => i.videoId) := by
  constructor
  · decide
  · decide

/-- C4 amended: when both calls succeed, the returned sequence follows the
details response's own item order (so it follows the search order exactly
when the details endpoint returns items in the requested order, but is not
re-sorted otherwise). -/
theorem c4_order_follows_details (channel_id : String) (max_results : Nat)
    (search_api : SearchRequest → HttpResult SearchPayload)
    (videos_api : List String → HttpResult VideosPayload)
    (sp : SearchPayload) (vp : VideosPayload)
    (hs : search_api (searchRequest channel_id max_results) = .resp 200 (some sp))
    (hne : sp.items ≠ [])
    (hv : videos_api (sp.items.map (fun i => i.videoId)) = .resp 200 (some vp)) :
    (get_recent_videos channel_id max_results search_api videos_api).1 =
      vp.items.map extractVideo ∧
    (vp.items.map (fun i => i.id) = sp.items.map (fun i => i.videoId) →
      (get_recent_videos channel_id max_results search_api videos_api).1.map
        (fun v => v.video_id) = sp.items.map (fun i => i.videoId)) := by
  have h1 : (get_recent_videos channel_id max_results search_api videos_api).1 =
      vp.items.map extractVideo := by
    unfold get_recent_videos
    rw [hs]
    simp [hne, hv]
  refine ⟨h1, fun hord => ?_⟩
  rw [h1, List.map_map]
  calc vp.items.map ((fun v : VideoRecord => v.video_id) ∘ extractVideo)
      = vp.items.map (fun i => i.id) := rfl
    _ = sp.items.map (fun i => i.videoId) := hord

/-- Witness for the amended C4 at a concrete pair of conforming responses. -/
theorem c4_order_follows_details_witness :
    ((fun _ : SearchRequest => HttpResult.resp 200 (some searchAB))
        (searchRequest "c" 10) = .resp 200 (some searchAB)) ∧
    searchAB.items ≠ [] ∧
    (get_recent_videos "c" 10 (fun _ => .resp 200 (some searchAB))
        (fun _ => .resp 200 (some { items := [itemA, itemB] }))).1 =
      ({ items := [itemA, itemB] } : VideosPayload).items.map extractVideo :=
  ⟨rfl, by decide,
   (c4_order_follows_details "c" 10 (fun _ => .resp 200 (some searchAB))
     (fun _ => .resp 200 (some { items := [itemA, itemB] })) searchAB
     { items := [itemA, itemB] } rfl (by decide) rfl).1⟩

/-- C5 counterexample: with `max_results = 1` the search request carries the
cap, but a server that ignores it and returns two items makes
`get_recent_videos` return two records — the code never truncates on the
client side, so the bound does not hold for every response the endpoints may
return. -/
theorem c5_counterexample :
    ¬ ((get_recent_videos "c" 1 (fun _ => .resp 200 (some searchAB))
        (fun _ => .resp 200 (some { items := [itemA, itemB] }))).1.length ≤ 1) := by
  decide

/-- C5 amended: `get_recent_videos` returns at most `max_results` records
whenever the search endpoint honours the requested cap (returns at most
`max_results` items) and the details endpoint returns at most one item per
requested identifier; the cap is enforced only through the request parameter,
not by client-side truncation. -/
theorem c5_cap_under_conforming_server (channel_id : String) (max_results : Nat)
    (search_api : SearchRequest → HttpResult SearchPayload)
    (videos_api : List String → HttpResult VideosPayload)
    (hs : ∀ st sp, search_api (searchRequest channel_id max_results) =
      .resp st (some sp) → sp.items.length ≤ max_results)
    (hv : ∀ ids st vp, videos_api ids = .resp st (some vp) →
      vp.items.length ≤ ids.length) :
    (get_recent_videos channel_id max_results search_api videos_api).1.length ≤
      max_results := by
  unfold get_recent_videos
  cases h : search_api (searchRequest channel_id max_results) with
  | netErr => simp
  | resp st body =>
    cases body with
    | none => cases Decidable.em (st ≠ 200) with
      | inl hst => simp [hst]
      | inr hst => simp [hst]
    | some sp =>
      cases Decidable.em (st ≠ 200) with
      | inl hst => simp [hst]
      | inr hst =>
        have hsp : sp.items.length ≤ max_results := hs st sp h
        cases Decidable.em (sp.items.isEmpty = true) with
        | inl hemp => simp [hst, hemp]
        | inr hemp =>
          cases h2 : videos_api (sp.items.map (fun i => i.videoId)) with
          | netErr => simp [hst, hemp, h2]
          | resp st2 body2 =>
            cases body2 with
            | none => cases Decidable.em (st2 ≠ 200) with
              | inl hst2 => simp [hst, hemp, h2, hst2]
              | inr hst2 => simp [hst, hemp, h2, hst2]
            | some vp =>
              have hvp : vp.items.length ≤ (sp.items.map (fun i => i.videoId)).length :=
                hv _ st2 vp h2
              rw [List.length_map] at hvp
              cases Decidable.em (st2 ≠ 200) with
              | inl hst2 => simp [hst, hemp, h2, hst2]
              | inr hst2 =>
                simpa [hst, hemp, h2, hst2] using le_trans hvp hsp

/-- Conforming search server for the C5 witness: always one item, within the
cap of 1. -/
def searchOneW : SearchRequest → HttpResult SearchPayload :=
  fun _ => .resp 200 (some { items := [{ videoId := "a" }] })

/-- Conforming details server for the C5 witness: at most one item per
requested identifier. -/
def detailsOneW : List String → HttpResult VideosPayload :=
  fun ids => .resp 200 (some { items := if ids.isEmpty then [] else [itemA] })

/-- Witness for the amended C5: a cap of 1 with a conforming server yields at
most one record. -/
theorem c5_cap_under_conforming_server_witness :
    (∀ st sp, searchOneW (searchRequest "c" 1) = .resp st (some sp) →
      sp.items.length ≤ 1) ∧
    (∀ ids st vp, detailsOneW ids = .resp st (some vp) →
      vp.items.length ≤ ids.length) ∧
    (get_recent_videos "c" 1 searchOneW detailsOneW).1.length ≤ 1 := by
  have hs : ∀ st sp, searchOneW (searchRequest "c" 1) = .resp st (some sp) →
      sp.items.length ≤ 1 := by
    intro st sp h
    simp only [searchOneW, HttpResult.resp.injEq, Option.some.injEq] at h
    rw [← h.2]
    decide
  have hv : ∀ ids st vp, detailsOneW ids = .resp st (some vp) →
      vp.items.length ≤ ids.length := by
    intro ids st vp h
    simp only [detailsOneW, HttpResult.resp.injEq, Option.some.injEq] at h
    rw [← h.2]
    cases ids with
    | nil => simp
    | cons a l => simp [itemA]
  exact ⟨hs, hv, c5_cap_under_conforming_server "c" 1 searchOneW detailsOneW hs hv⟩

/-- The failure outcomes the error-handling claim lists for the channel
lookup: network-level error, non-200 status, malformed body, or zero matching
results (with an `items` list shorter than `totalResults` promises counted as
malformed). -/
def channelFetchFails (r : HttpResult ChannelPayload) : Bool :=
  match r with
  | .netErr => true
  | .resp _ none => true
  | .resp st (some p) => st != 200 || p.totalResults == 0 || p.items.isEmpty

/-- The failure outcomes the error-handling claim lists for the recent-video
fetch, at either sub-call: network-level error, non-200 status, malformed
body, or zero matching search results. -/
def videosFetchFails (channel_id : String) (max_results : Nat)
    (search_api : SearchRequest → HttpResult SearchPayload)
    (videos_api : List String → HttpResult VideosPayload) : Bool :=
  match search_api (searchRequest channel_id max_results) with
  | .netErr => true
  | .resp _ none => true
  | .resp st (some sp) =>
    st != 200 || sp.items.isEmpty ||
      (match videos_api (sp.items.map (fun i => i.videoId)) with
       | .netErr => true
       | .resp _ none => true
       | .resp st2 (some _) => st2 != 200)

/-- The recent-video failure outcomes at which the source prints a
diagnostic: every listed outcome except a search that returns zero items,
which short-circuits silently at tracker.py:85-86 (the details call is then
never made). -/
def videosFetchFailsNoisily (channel_id : String) (max_results : Nat)
    (search_api : SearchRequest → HttpResult SearchPayload)
    (videos_api : List String → HttpResult VideosPayload) : Bool :=
  match search_api (searchRequest channel_id max_results) with
  | .netErr => true
  | .resp _ none => true
  | .resp st (some sp) =>
    st != 200 ||
      (!sp.items.isEmpty &&
        (match videos_api (sp.items.map (fun i => i.videoId)) with
         | .netErr => true
         | .resp _ none => true
         | .resp st2 (some _) => st2 != 200))

/-- C7 counterexample: a search response with zero matching results is one of
the outcomes the claim lists, yet `get_recent_videos` returns the empty
sequence with an empty diagnostic log — tracker.py:85-86 short-circuits
without printing, so "after reporting a diagnostic" fails for this outcome. -/
theorem c7_counterexample :
    videosFetchFails "c" 10 (fun _ => .resp 200 (some { items := [] }))
      (fun _ => .netErr) = true ∧
    get_recent_videos "c" 10 (fun _ => .resp 200 (some { items := [] }))
      (fun _ => .netErr) = ([], []) := by
  constructor
  · rfl
  · rfl

/-- C7 amended: no exception escapes either fetch function (both are total in
the embedding); on every listed failure outcome `get_channel_stats` yields
`none` — always with a diagnostic — and `get_recent_videos` yields the empty
sequence, with a diagnostic on every such outcome except a search returning
zero matching results, which is absorbed silently. -/
theorem c7_failures_degrade (channel_id now : String) (max_results : Nat)
    (r : HttpResult ChannelPayload)
    (search_api : SearchRequest → HttpResult SearchPayload)
    (videos_api : List String → HttpResult VideosPayload) :
    (channelFetchFails r = true →
      (get_channel_stats channel_id now r).1 = none ∧
      (get_channel_stats channel_id now r).2 ≠ []) ∧
    (videosFetchFails channel_id max_results search_api videos_api = true →
      (get_recent_videos channel_id max_results search_api videos_api).1 = []) ∧
    (videosFetchFailsNoisily channel_id max_results search_api videos_api = true →
      (get_recent_videos channel_id max_results search_api videos_api).2 ≠ []) := by
  refine ⟨?_, ?_, ?_⟩
  · intro h
    unfold get_channel_stats
    cases r with
    | netErr => exact ⟨rfl, by simp⟩
    | resp st body =>
      cases body with
      | none =>
        cases Decidable.em (st ≠ 200) with
        | inl hst => simp [hst]
        | inr hst => simp [hst]
      | some p =>
        simp only [channelFetchFails, Bool.or_eq_true, bne_iff_ne, beq_iff_eq,
          List.isEmpty_iff] at h
        rcases h with (h | h) | h
        · simp [h]
        · cases Decidable.em (st ≠ 200) with
          | inl hst => simp [hst]
          | inr hst => simp [hst, h]
        · cases Decidable.em (st ≠ 200) with
          | inl hst => simp [hst]
          | inr hst =>
            cases Decidable.em (p.totalResults = 0) with
            | inl ht => simp [hst, ht]
            | inr ht => simp [hst, ht, h]
  · intro h
    unfold get_recent_videos
    unfold videosFetchFails at h
    cases hsr : search_api (searchRequest channel_id max_results) with
    | netErr => rfl
    | resp st body =>
      rw [hsr] at h
      cases body with
      | none =>
        cases Decidable.em (st ≠ 200) with
        | inl hst => simp [hst]
        | inr hst => simp [hst]
      | some sp =>
        simp only [Bool.or_eq_true, bne_iff_ne, List.isEmpty_iff] at h
        cases Decidable.em (st ≠ 200) with
        | inl hst => simp [hst]
        | inr hst =>
          rcases h with (h | h) | h
          · exact absurd h hst
          · simp [hst, h]
          · cases Decidable.em (sp.items.isEmpty = true) with
            | inl hemp => simp [hst, hemp]
            | inr hemp =>
              cases hvr : videos_api (sp.items.map (fun i => i.videoId)) with
              | netErr => simp [hst, hemp, hvr]
              | resp st2 body2 =>
                rw [hvr] at h
                cases body2 with
                | none =>
                  cases Decidable.em (st2 ≠ 200) with
                  | inl hst2 => simp [hst, hemp, hvr, hst2]
                  | inr hst2 => simp [hst, hemp, hvr, hst2]
                | some vp =>
                  have hst2 : st2 ≠ 200 := by
                    simpa using h
                  simp [hst, hemp, hvr, hst2]
  · intro h
    unfold get_recent_videos
    unfold videosFetchFailsNoisily at h
    cases hsr : search_api (searchRequest channel_id max_results) with
    | netErr => simp
    | resp st body =>
      rw [hsr] at h
      cases body with
      | none =>
        cases Decidable.em (st ≠ 200) with
        | inl hst => simp [hst]
        | inr hst => simp [hst]
      | some sp =>
        simp only [Bool.or_eq_true, bne_iff_ne, Bool.and_eq_true,
          Bool.not_eq_true', List.isEmpty_eq_false] at h
        cases Decidable.em (st ≠ 200) with
        | inl hst => simp [hst]
        | inr hst =>
          rcases h with h | ⟨hne, h⟩
          · exact absurd h hst
          · have hemp : sp.items.isEmpty = false := by
              simpa [List.isEmpty_eq_false] using hne
            cases hvr : videos_api (sp.items.map (fun i => i.videoId)) with
            | netErr => simp [hst, hemp, hvr]
            | resp st2 body2 =>
              rw [hvr] at h
              cases body2 with
              | none =>
                cases Decidable.em (st2 ≠ 200) with
                | inl hst2 => simp [hst, hemp, hvr, hst2]
                | inr hst2 => simp [hst, hemp, hvr, hst2]
              | some vp =>
                have hst2 : st2 ≠ 200 := by
                  simpa using h
                simp [hst, hemp, hvr, hst2]

/-- Witness for the amended C7 at concrete failure outcomes: a transport
error on the channel lookup and a non-200 search response. -/
theorem c7_failures_degrade_witness :
    channelFetchFails .netErr = true ∧
    (get_channel_stats "c" "t" .netErr).1 = none ∧
    (get_channel_stats "c" "t" .netErr).2 ≠ [] ∧
    videosFetchFails "c" 10 (fun _ => .resp 403 (some { items := [] }))
      (fun _ => .netErr) = true ∧
    (get_recent_videos "c" 10 (fun _ => .resp 403 (some { items := [] }))
      (fun _ => .netErr)).1 = [] ∧
    videosFetchFailsNoisily "c" 10 (fun _ => .resp 403 (some { items := [] }))
      (fun _ => .netErr) = true ∧
    (get_recent_videos "c" 10 (fun _ => .resp 403 (some { items := [] }))
      (fun _ => .netErr)).2 ≠ [] := by
  have h1 := (c7_failures_degrade "c" "t" 10 HttpResult.netErr
    (fun _ => .resp 403 (some { items := [] })) (fun _ => .netErr)).1 rfl
  have h2 := (c7_failures_degrade "c" "t" 10 HttpResult.netErr
    (fun _ => .resp 403 (some { items := [] })) (fun _ => .netErr)).2.1 rfl
  have h3 := (c7_failures_degrade "c" "t" 10 HttpResult.netErr
    (fun _ => .resp 403 (some { items := [] })) (fun _ => .netErr)).2.2 rfl
  exact ⟨rfl, h1.1, h1.2, rfl, h2, rfl, h3⟩

/-- C8: when neither the explicit key nor the environment variable yields a
non-empty value, credential resolution fails with the configuration error and
`main` issues no network call; when either source yields a non-empty value,
initialisation proceeds with exactly that credential (the explicit key taking
precedence via Python `or`). -/
theorem c8_credential_gate (api_key env : Option String)
    (get_stats : String → Option ChannelStats)
    (get_videos : String → List VideoRecord) :
    ((pyOr api_key env).getD "" = "" →
      tracker_init api_key env = .error apiKeyErrorMsg ∧
      (main_run env get_stats get_videos).network_channels = []) ∧
    (∀ k, pyOr api_key env = some k → k ≠ "" →
      tracker_init api_key env = .ok k) := by
  constructor
  · intro h
    have henv : env = none ∨ env = some "" := by
      cases api_key with
      | none =>
        simp only [pyOr] at h
        cases env with
        | none => exact Or.inl rfl
        | some s =>
          simp only [Option.getD_some] at h
          exact Or.inr (by rw [h])
      | some s =>
        simp only [pyOr] at h
        cases Decidable.em (s = "") with
        | inl hs =>
          rw [if_pos hs] at h
          cases env with
          | none => exact Or.inl rfl
          | some t =>
            simp only [Option.getD_some] at h
            exact Or.inr (by rw [h])
        | inr hs =>
          rw [if_neg hs] at h
          simp only [Option.getD_some] at h
          exact absurd h hs
    constructor
    · unfold tracker_init
      cases hk : pyOr api_key env with
      | none => rfl
      | some k =>
        rw [hk] at h
        simp only [Option.getD_some] at h
        simp [h]
    · rcases henv with rfl | rfl
      · rfl
      · rfl
  · intro k hk hkne
    unfold tracker_init
    rw [hk]
    simp [hkne]

/-- Witness for C8: both sources absent aborts with the configuration error
and no network call; an explicit non-empty key proceeds with that key. -/
theorem c8_credential_gate_witness :
    ((pyOr none none).getD "" = "" ∧
      tracker_init none none = .error apiKeyErrorMsg ∧
      (main_run none (fun _ => none) (fun _ => [])).network_channels = []) ∧
    (pyOr (some "KEY") none = some "KEY" ∧ "KEY" ≠ "" ∧
      tracker_init (some "KEY") none = .ok "KEY") := by
  have h1 := (c8_credential_gate none none (fun _ => none) (fun _ => [])).1 rfl
  have h2 := (c8_credential_gate (some "KEY") none (fun _ => none)
    (fun _ => [])).2 "KEY" (by decide) (by decide)
  exact ⟨⟨rfl, h1.1, h1.2⟩, ⟨by decide, by decide, h2⟩⟩

/-- C9: an empty row sequence makes `export_to_csv` skip the write entirely
(no file, not even a header-only one) and report the nothing-to-export
diagnostic; a non-empty sequence produces a file whose header is the field
set of the first row and whose body has exactly one record per row. -/
theorem c9_export (data : List ComparisonRow) :
    (data = [] → export_to_csv data = (none, ["No data to export"])) ∧
    (data ≠ [] →
      (export_to_csv data).1 =
        some { header := rowFieldNames, records := data.map rowValues } ∧
      (data.map rowValues).length = data.length) := by
  constructor
  · rintro rfl
    rfl
  · intro h
    cases data with
    | nil => exact absurd rfl h
    | cons a l => exact ⟨rfl, by simp⟩

/-- Witness for C9 at the empty sequence and at a concrete one-row
sequence. -/
theorem c9_export_witness :
    export_to_csv [] = (none, ["No data to export"]) ∧
    ([ComparisonRow.mk "c" "n" 1 2 3 "t" 4 5 6 7] ≠ ([] : List ComparisonRow)) ∧
    (export_to_csv [ComparisonRow.mk "c" "n" 1 2 3 "t" 4 5 6 7]).1 =
      some { header := rowFieldNames,
             records := [ComparisonRow.mk "c" "n" 1 2 3 "t" 4 5 6 7].map rowValues } :=
  ⟨(c9_export []).1 rfl, by decide,
   ((c9_export [ComparisonRow.mk "c" "n" 1 2 3 "t" 4 5 6 7]).2 (by decide)).1⟩

/-- C10: with a usable credential, the sequence handed to the CSV export is
exactly the aggregator's output — sorting for the console report produces a
separate list (`sorted` returns a fresh list), which is a permutation of the
exported sequence but never replaces it. -/
theorem c10_export_receives_canonical (api_key : String)
    (get_stats : String → Option ChannelStats)
    (get_videos : String → List VideoRecord) (hne : api_key ≠ "") :
    (main_run (some api_key) get_stats get_videos).export_input =
      compare_channels get_stats get_videos channels_to_compare ∧
    ((main_run (some api_key) get_stats get_videos).console_rows).Perm
      (sortedBySubscribersDesc
        (main_run (some api_key) get_stats get_videos).export_input) ∧
    ((main_run (some api_key) get_stats get_videos).console_rows).Perm
      ((main_run (some api_key) get_stats get_videos).export_input) := by
  unfold main_run
  dsimp only
  rw [if_neg hne]
  cases h : compare_channels get_stats get_videos channels_to_compare with
  | nil => exact ⟨rfl, by simp [sortedBySubscribersDesc], by simp⟩
  | cons a l =>
    refine ⟨rfl, List.Perm.refl _, ?_⟩
    exact List.mergeSort_perm (a :: l) _

/-- Witness for C10 with a stats fetcher that yields a summary for every
identifier. -/
theorem c10_export_receives_canonical_witness :
    ("k" ≠ "") ∧
    (main_run (some "k") (fun cid => some (ChannelStats.mk cid "n" 1 2 3 "t"))
        (fun _ => [])).export_input =
      compare_channels (fun cid => some (ChannelStats.mk cid "n" 1 2 3 "t"))
        (fun _ => []) channels_to_compare ∧
    ((main_run (some "k") (fun cid => some (ChannelStats.mk cid "n" 1 2 3 "t"))
        (fun _ => [])).console_rows).Perm
      ((main_run (some "k") (fun cid => some (ChannelStats.mk cid "n" 1 2 3 "t"))
        (fun _ => [])).export_input) := by
  have h := c10_export_receives_canonical "k"
    (fun cid => some (ChannelStats.mk cid "n" 1 2 3 "t")) (fun _ => [])
    (by decide)
  exact ⟨by decide, h.1, h.2.2⟩
